import Mathlib

/-!
Verification development for the world-simulation engine in
`src/simple_agar/envs/base_world.py` (class `BaseWorld`).

The Python code is vectorized NumPy working over `float32` arrays; here it is
shallowly embedded over the real numbers with `Fin`-indexed functions playing
the role of arrays.  Every definition below is translated line-by-line from
the named method of `BaseWorld`; the concrete worlds at the end of the
definition section are the inputs used by the scenario theorems.
-/

namespace SimpleAgar

noncomputable section

open scoped Classical
open Finset

/-- Simulation parameters stored by `BaseWorld.__init__` (base_world.py lines
12-34).  The constructor merely records them on `self`; no validation occurs. -/
structure Config where
  num_players : ℕ
  num_pellets : ℕ
  pellet_mass : ℝ
  player_mass_base : ℝ
  player_mass_decay : ℝ
  player_speed_inv_pow : ℝ
  player_speed_scale : ℝ
  sqrt_mass_to_radius : ℝ
  penalty_base_mass : ℝ

/-- Derived pellet radius, `np.sqrt(pellet_mass) * sqrt_mass_to_radius`
(base_world.py line 28). -/
def Config.pellet_radius (cfg : Config) : ℝ :=
  Real.sqrt cfg.pellet_mass * cfg.sqrt_mass_to_radius

/-- The mutable per-episode state of `BaseWorld`: the `_player_masses`,
`_player_is_alive`, `_player_locations`, `_pellet_locations` arrays together
with the cached `_player_radii` and the two distance matrices. -/
structure WorldState (P N : ℕ) where
  player_masses : Fin P → ℝ
  player_is_alive : Fin P → Bool
  player_locations : Fin P → ℝ × ℝ
  pellet_locations : Fin N → ℝ × ℝ
  player_radii : Fin P → ℝ
  player_to_player_distances : Fin P → Fin P → ℝ
  player_to_pellet_distances : Fin P → Fin N → ℝ

/-- Euclidean distance between two points of the plane, as computed by
`scipy.spatial.distance_matrix` (Minkowski `p = 2`). -/
def eDist (a b : ℝ × ℝ) : ℝ :=
  Real.sqrt ((a.1 - b.1) ^ 2 + (a.2 - b.2) ^ 2)

/-- The `_action_to_direction` table (base_world.py lines 40-49):
noop, right, up, left, down. -/
def actionToDirection (a : Fin 5) : ℝ × ℝ :=
  if a.val = 0 then (0, 0)
  else if a.val = 1 then (1, 0)
  else if a.val = 2 then (0, 1)
  else if a.val = 3 then (-1, 0)
  else (0, -1)

/-- Per-player displacement magnitude before the speed scale,
`np.power(np.clip(mass, a_min=1e-5, a_max=None), player_speed_inv_pow)`
(base_world.py lines 159-162). -/
def playerSpeed (cfg : Config) (m : ℝ) : ℝ :=
  Real.rpow (max m (1 / 100000)) cfg.player_speed_inv_pow

/-- The in-place overwrite `actions[~self._player_is_alive] = 0`
(base_world.py line 154): dead players are forced to noop; the caller's
array is mutated, so this is also the value the caller observes afterwards. -/
def maskedActions {P N : ℕ} (s : WorldState P N) (actions : Fin P → Fin 5) :
    Fin P → Fin 5 :=
  fun i => if s.player_is_alive i then actions i else 0

/-- The new location of player `i` computed by `_update_player_locations`
(base_world.py lines 157-162): old location plus direction times
`speed * player_speed_scale`.  No clipping is applied. -/
def movedLocation (cfg : Config) {P N : ℕ} (s : WorldState P N)
    (actions : Fin P → Fin 5) (i : Fin P) : ℝ × ℝ :=
  ((s.player_locations i).1 +
      (actionToDirection (maskedActions s actions i)).1 *
        (playerSpeed cfg (s.player_masses i) * cfg.player_speed_scale),
   (s.player_locations i).2 +
      (actionToDirection (maskedActions s actions i)).2 *
        (playerSpeed cfg (s.player_masses i) * cfg.player_speed_scale))

/-- State update part of `_update_player_locations`. -/
def updatePlayerLocations (cfg : Config) {P N : ℕ} (s : WorldState P N)
    (actions : Fin P → Fin 5) : WorldState P N :=
  { s with player_locations := fun i => movedLocation cfg s actions i }

/-- A point lies outside the board, `(loc < 0) | (loc >= 1)` in either axis
(base_world.py line 165). -/
def outsideUnit (p : ℝ × ℝ) : Prop :=
  p.1 < 0 ∨ 1 ≤ p.1 ∨ p.2 < 0 ∨ 1 ≤ p.2

/-- The return value of `_update_player_locations` (base_world.py line 165):
players that are alive and whose updated location left the board. -/
def playersOffScreen (cfg : Config) {P N : ℕ} (s : WorldState P N)
    (actions : Fin P → Fin 5) (i : Fin P) : Prop :=
  s.player_is_alive i = true ∧ outsideUnit (movedLocation cfg s actions i)

/-- `_update_player_distances` (base_world.py lines 170-178): recompute both
distance matrices from the current locations. -/
def updatePlayerDistances {P N : ℕ} (s : WorldState P N) : WorldState P N :=
  { s with
    player_to_player_distances := fun i j =>
      eDist (s.player_locations i) (s.player_locations j),
    player_to_pellet_distances := fun i k =>
      eDist (s.player_locations i) (s.pellet_locations k) }

/-- `_update_player_radii` (base_world.py lines 167-168):
`radii = sqrt(masses) * sqrt_mass_to_radius`. -/
def updatePlayerRadii (cfg : Config) {P N : ℕ} (s : WorldState P N) :
    WorldState P N :=
  { s with player_radii := fun i =>
      Real.sqrt (s.player_masses i) * cfg.sqrt_mass_to_radius }

/-- The state seen by `_update_player_masses` inside `step`: locations moved,
then distances and radii recomputed (base_world.py lines 90-92). -/
def preCaptureState (cfg : Config) {P N : ℕ} (s : WorldState P N)
    (actions : Fin P → Fin 5) : WorldState P N :=
  updatePlayerRadii cfg (updatePlayerDistances (updatePlayerLocations cfg s actions))

/-- Entry `[i, j]` of the boolean matrix `player_eats_player`
(base_world.py lines 182-185): distance below eater radius and strict radius
dominance. -/
def playerEatsPlayer {P N : ℕ} (s : WorldState P N) (i j : Fin P) : Prop :=
  s.player_to_player_distances i j < s.player_radii i ∧
    s.player_radii j < s.player_radii i

/-- Entry `[i, k]` of the boolean matrix `player_eats_pellet`
(base_world.py lines 188-194). -/
def playerEatsPellet (cfg : Config) {P N : ℕ} (s : WorldState P N)
    (i : Fin P) (k : Fin N) : Prop :=
  s.player_to_pellet_distances i k < s.player_radii i + cfg.pellet_radius ∧
    cfg.pellet_radius < s.player_radii i

/-- Numeric entry of `player_eats_player` after `.astype(np.float32)`. -/
def pepEntry {P N : ℕ} (s : WorldState P N) (i j : Fin P) : ℝ :=
  if playerEatsPlayer s i j then 1 else 0

/-- Numeric entry of `player_eats_pellet` after `.astype(np.float32)`. -/
def ppeEntry (cfg : Config) {P N : ℕ} (s : WorldState P N)
    (i : Fin P) (k : Fin N) : ℝ :=
  if playerEatsPellet cfg s i k then 1 else 0

/-- Membership in `players_eaten = np.where(np.any(player_eats_player, axis=0))`
(base_world.py line 196). -/
def playerEaten {P N : ℕ} (s : WorldState P N) (j : Fin P) : Prop :=
  ∃ i, playerEatsPlayer s i j

/-- Membership in `pellets_eaten = np.where(np.any(player_eats_pellet, axis=0))`
(base_world.py line 197). -/
def pelletEaten (cfg : Config) {P N : ℕ} (s : WorldState P N) (k : Fin N) : Prop :=
  ∃ i, playerEatsPellet cfg s i k

/-- Column sum `np.sum(player_eats_player[:, j], axis=0)`. -/
def pepColSum {P N : ℕ} (s : WorldState P N) (j : Fin P) : ℝ :=
  ∑ i, pepEntry s i j

/-- Column sum `np.sum(player_eats_pellet[:, k], axis=0)`. -/
def ppeColSum (cfg : Config) {P N : ℕ} (s : WorldState P N) (k : Fin N) : ℝ :=
  ∑ i, ppeEntry cfg s i k

/-- Number of players eating player `j` this tick. -/
def playerEaterCard {P N : ℕ} (s : WorldState P N) (j : Fin P) : ℕ :=
  (Finset.univ.filter (fun i => playerEatsPlayer s i j)).card

/-- Number of players eating pellet `k` this tick. -/
def pelletEaterCard (cfg : Config) {P N : ℕ} (s : WorldState P N) (k : Fin N) : ℕ :=
  (Finset.univ.filter (fun i => playerEatsPellet cfg s i k)).card

/-- Entry of `player_eats_player` after the in-place normalization
`player_eats_player[:, players_eaten] /= np.sum(...)`
(base_world.py lines 200-202): only eaten columns are divided. -/
def pepNorm {P N : ℕ} (s : WorldState P N) (i j : Fin P) : ℝ :=
  if playerEaten s j then pepEntry s i j / pepColSum s j else pepEntry s i j

/-- Entry of `player_eats_pellet` after the in-place normalization
(base_world.py lines 203-205). -/
def ppeNorm (cfg : Config) {P N : ℕ} (s : WorldState P N)
    (i : Fin P) (k : Fin N) : ℝ :=
  if pelletEaten cfg s k then ppeEntry cfg s i k / ppeColSum cfg s k
  else ppeEntry cfg s i k

/-- Mass vector after `self._player_masses += np.sum(player_eats_pellet *
self.pellet_mass, axis=-1)` (base_world.py line 208). -/
def massesAfterPellets (cfg : Config) {P N : ℕ} (s : WorldState P N)
    (i : Fin P) : ℝ :=
  s.player_masses i + ∑ k, ppeNorm cfg s i k * cfg.pellet_mass

/-- Mass vector after `self._player_masses += np.sum(player_eats_player *
self._player_masses, axis=-1)` (base_world.py line 209).  NumPy evaluates the
right-hand side with the post-pellet masses, then adds. -/
def massesAfterPlayers (cfg : Config) {P N : ℕ} (s : WorldState P N)
    (i : Fin P) : ℝ :=
  massesAfterPellets cfg s i + ∑ j, pepNorm s i j * massesAfterPellets cfg s j

/-- Mass vector after the decay clamp (base_world.py lines 212-216):
only currently-alive players are decayed, with floor `player_mass_base`. -/
def massesAfterDecay (cfg : Config) {P N : ℕ} (s : WorldState P N)
    (i : Fin P) : ℝ :=
  if s.player_is_alive i then
    max (massesAfterPlayers cfg s i * cfg.player_mass_decay) cfg.player_mass_base
  else massesAfterPlayers cfg s i

/-- State update of `_update_player_masses` (base_world.py lines 180-218). -/
def updatePlayerMasses (cfg : Config) {P N : ℕ} (s : WorldState P N) :
    WorldState P N :=
  { s with player_masses := massesAfterDecay cfg s }

/-- `_update_player_is_alive` (base_world.py lines 220-226): kill eaten and
off-screen players, then zero the mass of every not-alive player. -/
def updatePlayerIsAlive {P N : ℕ} (s : WorldState P N)
    (eaten off : Fin P → Prop) : WorldState P N :=
  { s with
    player_is_alive := fun i =>
      if eaten i ∨ off i then false else s.player_is_alive i,
    player_masses := fun i =>
      if (if eaten i ∨ off i then false else s.player_is_alive i) then
        s.player_masses i
      else 0 }

/-- `_update_pellet_locations` (base_world.py lines 228-234): every eaten
pellet's location is overwritten by one fresh PRNG draw (no rejection or
retry of any kind), and the distance entries of respawned pellets are
recomputed. -/
def updatePelletLocations {P N : ℕ} (s : WorldState P N)
    (eaten : Fin N → Prop) (draws : Fin N → ℝ × ℝ) : WorldState P N :=
  { s with
    pellet_locations := fun k =>
      if eaten k then draws k else s.pellet_locations k,
    player_to_pellet_distances := fun i k =>
      if eaten k then eDist (s.player_locations i) (draws k)
      else s.player_to_pellet_distances i k }

/-- `np.count_nonzero(self._player_is_alive)` (base_world.py line 254). -/
def numPlayersAlive {P N : ℕ} (s : WorldState P N) : ℕ :=
  (Finset.univ.filter (fun i => s.player_is_alive i = true)).card

/-- `_get_terminated` (base_world.py lines 253-255). -/
def getTerminated {P N : ℕ} (s : WorldState P N) : Prop :=
  if P = 1 then numPlayersAlive s = 0 else numPlayersAlive s ≤ 1

/-- `_get_reward` (base_world.py lines 244-251): mass delta, with the base-mass
penalty subtracted exactly where the new mass equals `player_mass_base`. -/
def getReward (cfg : Config) {P N : ℕ} (s : WorldState P N)
    (prev : Fin P → ℝ) (i : Fin P) : ℝ :=
  (s.player_masses i - prev i) -
    (if s.player_masses i = cfg.player_mass_base then cfg.penalty_base_mass else 0)

/-- The data produced by one `step` call.  `actionsOut` is the caller's
`actions` array as it stands after the call (it is mutated in place at
base_world.py line 154). -/
structure StepResult (P N : ℕ) where
  state : WorldState P N
  actionsOut : Fin P → Fin 5
  reward : Fin P → ℝ
  terminated : Prop

/-- `BaseWorld.step` (base_world.py lines 89-105).  The PRNG draws used for
pellet respawn are passed in explicitly as `draws`.  The method performs no
precondition check of any kind: it always runs a full tick. -/
def step (cfg : Config) {P N : ℕ} (s : WorldState P N)
    (actions : Fin P → Fin 5) (draws : Fin N → ℝ × ℝ) : StepResult P N :=
  let s2 := preCaptureState cfg s actions
  let s3 := updatePlayerMasses cfg s2
  let s4 := updatePlayerIsAlive s3 (fun j => playerEaten s2 j)
    (fun i => playersOffScreen cfg s actions i)
  let s5 := updatePelletLocations s4 (fun k => pelletEaten cfg s2 k) draws
  { state := s5
    actionsOut := maskedActions s actions
    reward := getReward cfg s5 s2.player_masses
    terminated := getTerminated s5 }

/-- Iterated `step`: one episode segment driven by a list of
(actions, pellet-draws) inputs. -/
def runSteps (cfg : Config) {P N : ℕ} :
    WorldState P N → List ((Fin P → Fin 5) × (Fin N → ℝ × ℝ)) → WorldState P N
  | s, [] => s
  | s, ad :: rest => runSteps cfg (step cfg s ad.1 ad.2).state rest

/-- An environment handle: `none` models a `BaseWorld` on which `reset` has
never been called, so that the state arrays (`_player_masses`, ...) do not
exist yet. -/
def stepEnv (cfg : Config) {P N : ℕ} (es : Option (WorldState P N))
    (actions : Fin P → Fin 5) (draws : Fin N → ℝ × ℝ) :
    Except String (StepResult P N) :=
  match es with
  | none => Except.error "AttributeError: state arrays not set before reset"
  | some s => Except.ok (step cfg s actions draws)

/-- A call outcome that is an error report. -/
def isError {α : Type} (r : Except String α) : Prop :=
  ∃ e, r = Except.error e

/-- `BaseWorld.__init__` (base_world.py lines 12-69).  The body itself contains
no validation: it stores the parameters and derived quantities and builds the
gymnasium action and observation spaces.  The only failure path is inherited
from the library: `MultiBinary(num_players)` at line 57 asserts that the count
is positive, so `num_players = 0` raises an `AssertionError` at construction.
Nothing else is checked: `MultiDiscrete(np.full(num_players, 5))` at line 39
asserts positivity of the entries, which is vacuous for an empty array; `Box`
accepts zero-sized shapes, so `num_pellets = 0` passes; and every mass and
scale parameter is stored unchecked (`np.sqrt` of a negative value yields nan
with a warning, not an error). -/
def initBaseWorld (num_players num_pellets : ℕ)
    (pellet_mass player_mass_base player_mass_decay player_speed_inv_pow
      player_speed_scale sqrt_mass_to_radius penalty_base_mass : ℝ) :
    Except String Config :=
  if num_players = 0 then
    Except.error "AssertionError: counts have to be positive"
  else
    Except.ok
      { num_players := num_players
        num_pellets := num_pellets
        pellet_mass := pellet_mass
        player_mass_base := player_mass_base
        player_mass_decay := player_mass_decay
        player_speed_inv_pow := player_speed_inv_pow
        player_speed_scale := player_speed_scale
        sqrt_mass_to_radius := sqrt_mass_to_radius
        penalty_base_mass := penalty_base_mass }

/-- The spec's claim that a capture victim is always a living agent. -/
def deadNeverVictim {P N : ℕ} (s : WorldState P N) : Prop :=
  ∀ i j, playerEatsPlayer s i j → s.player_is_alive j = true

/-- The spec's claim that a respawned pellet never lands inside the capture
radius of a currently-alive agent. -/
def respawnAvoidsLivingAgents {P N : ℕ} (s : WorldState P N)
    (eaten : Fin N → Prop) (draws : Fin N → ℝ × ℝ) : Prop :=
  ∀ k, eaten k → ∀ i, s.player_is_alive i = true →
    ¬ (eDist (s.player_locations i)
        ((updatePelletLocations s eaten draws).pellet_locations k) <
      s.player_radii i)

/-- The default configuration of `BaseWorld.__init__` with two players and one
pellet (all other constants are the Python defaults, written as exact
rationals: decay 0.999, speed exponent -0.44, speed scale 0.08, radius scale
0.01, penalty 0.04). -/
def cfgD : Config :=
  { num_players := 2
    num_pellets := 1
    pellet_mass := 1
    player_mass_base := 4
    player_mass_decay := 999 / 1000
    player_speed_inv_pow := -(11 / 25)
    player_speed_scale := 2 / 25
    sqrt_mass_to_radius := 1 / 100
    penalty_base_mass := 1 / 25 }

/-- All-noop action vector for two players. -/
def noop2 : Fin 2 → Fin 5 := fun _ => 0

/-- All-noop action vector for one player. -/
def noop1 : Fin 1 → Fin 5 := fun _ => 0

/-- A single PRNG draw at the center of the board. -/
def draws1 : Fin 1 → ℝ × ℝ := fun _ => (1 / 2, 1 / 2)

/-- Scenario A of the spec: player 0 has mass 16, player 1 has mass 4, the two
are 0.02 apart (within player 0's radius 0.04), and the single pellet is far
away on the same horizontal line.  Cached radii and distances are stale (they
are recomputed by `step` before use). -/
def sA : WorldState 2 1 :=
  { player_masses := ![16, 4]
    player_is_alive := fun _ => true
    player_locations := ![((1 : ℝ) / 2, 1 / 2), ((13 : ℝ) / 25, 1 / 2)]
    pellet_locations := ![((9 : ℝ) / 10, 1 / 2)]
    player_radii := fun _ => 0
    player_to_player_distances := fun _ _ => 0
    player_to_pellet_distances := fun _ _ => 0 }

/-- A state in which player 0 (mass 16, radius 0.04) eats player 1 (mass 4,
radius 0.02, at distance 0.02) and both players eat the single pellet
(radius 0.01, at distance 0.01 from each).  Radii and distance matrices are
stored consistently with the masses and locations. -/
def sW1 : WorldState 2 1 :=
  { player_masses := ![16, 4]
    player_is_alive := fun _ => true
    player_locations := ![((1 : ℝ) / 2, 1 / 2), ((13 : ℝ) / 25, 1 / 2)]
    pellet_locations := ![((51 : ℝ) / 100, 1 / 2)]
    player_radii := ![1 / 25, 1 / 50]
    player_to_player_distances := ![![0, 1 / 50], ![1 / 50, 0]]
    player_to_pellet_distances := ![![1 / 100], ![1 / 100]] }

/-- Player 0 is alive with mass 16; player 1 is dead (mass 0) and lies at the
same location as player 0. -/
def sDV : WorldState 2 1 :=
  { player_masses := ![16, 0]
    player_is_alive := ![true, false]
    player_locations := ![((1 : ℝ) / 2, 1 / 2), ((1 : ℝ) / 2, 1 / 2)]
    pellet_locations := ![((9 : ℝ) / 10, 1 / 2)]
    player_radii := fun _ => 0
    player_to_player_distances := fun _ _ => 0
    player_to_pellet_distances := fun _ _ => 0 }

/-- One living player of mass 16 (radius 0.04) at the board center, and one
pellet at distance 0.01 from it, about to be eaten. -/
def sR : WorldState 1 1 :=
  { player_masses := fun _ => 16
    player_is_alive := fun _ => true
    player_locations := fun _ => ((1 : ℝ) / 2, 1 / 2)
    pellet_locations := fun _ => ((51 : ℝ) / 100, 1 / 2)
    player_radii := fun _ => 1 / 25
    player_to_player_distances := fun _ _ => 0
    player_to_pellet_distances := fun _ _ => 1 / 100 }

/-- One living player whose location is already outside the unit square. -/
def sOut : WorldState 1 1 :=
  { player_masses := fun _ => 4
    player_is_alive := fun _ => true
    player_locations := fun _ => ((3 : ℝ) / 2, 1 / 2)
    pellet_locations := fun _ => ((1 : ℝ) / 10, 1 / 10)
    player_radii := fun _ => 0
    player_to_player_distances := fun _ _ => 0
    player_to_pellet_distances := fun _ _ => 0 }

/-- A two-player world in which every player is dead: the episode has
terminated. -/
def sDead : WorldState 2 1 :=
  { player_masses := fun _ => 0
    player_is_alive := fun _ => false
    player_locations := fun _ => ((1 : ℝ) / 2, 1 / 2)
    pellet_locations := fun _ => ((9 : ℝ) / 10, 1 / 2)
    player_radii := fun _ => 0
    player_to_player_distances := fun _ _ => 0
    player_to_pellet_distances := fun _ _ => 0 }

/-- The state `step` passes to `_update_player_masses` in Scenario A. -/
def s2A : WorldState 2 1 := preCaptureState cfgD sA noop2

lemma eDist_same (p : ℝ × ℝ) : eDist p p = 0 := by
  simp [eDist]

lemma eDist_eval {x1 y1 x2 y2 d : ℝ} (hd : 0 ≤ d)
    (h : (x1 - x2) ^ 2 + (y1 - y2) ^ 2 = d ^ 2) :
    eDist (x1, y1) (x2, y2) = d := by
  rw [eDist]; dsimp only; rw [h, Real.sqrt_sq hd]

lemma sqrt_sixteen : Real.sqrt 16 = 4 := by
  rw [show (16 : ℝ) = 4 ^ 2 by norm_num, Real.sqrt_sq (by norm_num)]

lemma sqrt_four : Real.sqrt 4 = 2 := by
  rw [show (4 : ℝ) = 2 ^ 2 by norm_num, Real.sqrt_sq (by norm_num)]

lemma cfgD_pellet_radius : cfgD.pellet_radius = 1 / 100 := by
  rw [Config.pellet_radius]
  show Real.sqrt 1 * (1 / 100) = 1 / 100
  rw [Real.sqrt_one, one_mul]

lemma maskedActions_of_noop {P N : ℕ} (s : WorldState P N)
    (a : Fin P → Fin 5) (i : Fin P) (h : a i = 0) :
    maskedActions s a i = 0 := by
  rw [maskedActions, h, ite_self]

lemma actionToDirection_zero : actionToDirection 0 = (0, 0) := rfl

lemma moved_of_noop (cfg : Config) {P N : ℕ} (s : WorldState P N)
    (a : Fin P → Fin 5) (i : Fin P) (h : a i = 0) :
    movedLocation cfg s a i = s.player_locations i := by
  rw [movedLocation, maskedActions_of_noop s a i h, actionToDirection_zero]
  simp

lemma not_playerEatsPlayer_self {P N : ℕ} (s : WorldState P N) (i : Fin P) :
    ¬ playerEatsPlayer s i i := fun h => lt_irrefl _ h.2

lemma step_locations (cfg : Config) {P N : ℕ} (s : WorldState P N)
    (a : Fin P → Fin 5) (d : Fin N → ℝ × ℝ) (i : Fin P) :
    (step cfg s a d).state.player_locations i = movedLocation cfg s a i := rfl

lemma step_actionsOut (cfg : Config) {P N : ℕ} (s : WorldState P N)
    (a : Fin P → Fin 5) (d : Fin N → ℝ × ℝ) :
    (step cfg s a d).actionsOut = maskedActions s a := rfl

lemma step_alive (cfg : Config) {P N : ℕ} (s : WorldState P N)
    (a : Fin P → Fin 5) (d : Fin N → ℝ × ℝ) (i : Fin P) :
    (step cfg s a d).state.player_is_alive i =
      if playerEaten (preCaptureState cfg s a) i ∨ playersOffScreen cfg s a i
      then false else s.player_is_alive i := rfl

lemma step_masses (cfg : Config) {P N : ℕ} (s : WorldState P N)
    (a : Fin P → Fin 5) (d : Fin N → ℝ × ℝ) (i : Fin P) :
    (step cfg s a d).state.player_masses i =
      if (step cfg s a d).state.player_is_alive i
      then massesAfterDecay cfg (preCaptureState cfg s a) i else 0 := rfl

lemma step_pellets (cfg : Config) {P N : ℕ} (s : WorldState P N)
    (a : Fin P → Fin 5) (d : Fin N → ℝ × ℝ) (k : Fin N) :
    (step cfg s a d).state.pellet_locations k =
      if pelletEaten cfg (preCaptureState cfg s a) k then d k
      else s.pellet_locations k := rfl

lemma equal_split {P : ℕ} (p : Fin P → Prop) (M : ℝ) (h : ∃ i, p i) :
    (∀ i, (if p i then (1 : ℝ) else 0) / (∑ i', if p i' then (1 : ℝ) else 0) * M =
      if p i then M / ((Finset.univ.filter p).card : ℝ) else 0) ∧
    ∑ i, (if p i then (1 : ℝ) else 0) / (∑ i', if p i' then (1 : ℝ) else 0) * M
      = M := by
  have hcard : (∑ i', if p i' then (1 : ℝ) else 0)
      = ((Finset.univ.filter p).card : ℝ) := by
    simp [Finset.sum_boole]
  have hpos : 0 < (Finset.univ.filter p).card :=
    Finset.card_pos.mpr ⟨h.choose, Finset.mem_filter.mpr ⟨Finset.mem_univ _, h.choose_spec⟩⟩
  have hne : ((Finset.univ.filter p).card : ℝ) ≠ 0 :=
    Nat.cast_ne_zero.mpr hpos.ne'
  constructor
  · intro i
    by_cases hp : p i
    · rw [if_pos hp, if_pos hp, hcard, div_mul_eq_mul_div, one_mul]
    · rw [if_neg hp, if_neg hp, zero_div, zero_mul]
  · rw [← Finset.sum_mul, ← Finset.sum_div, hcard, div_self hne, one_mul]

/-- C1: for every victim (player or pellet) with at least one qualifying
eater, the contributed mass (the pellet's fixed mass, or the victim player's
mass at the moment the capture credit is applied) is divided equally: each
qualifying eater is credited `contributed / count`, non-eaters are credited
nothing, and the credited shares sum to exactly the contributed mass. -/
theorem capture_split_conservation (cfg : Config) {P N : ℕ} (s : WorldState P N) :
    (∀ j : Fin P, playerEaten s j →
      (∀ i, pepNorm s i j * massesAfterPellets cfg s j =
        if playerEatsPlayer s i j
        then massesAfterPellets cfg s j / (playerEaterCard s j : ℝ) else 0) ∧
      ∑ i, pepNorm s i j * massesAfterPellets cfg s j
        = massesAfterPellets cfg s j) ∧
    (∀ k : Fin N, pelletEaten cfg s k →
      (∀ i, ppeNorm cfg s i k * cfg.pellet_mass =
        if playerEatsPellet cfg s i k
        then cfg.pellet_mass / (pelletEaterCard cfg s k : ℝ) else 0) ∧
      ∑ i, ppeNorm cfg s i k * cfg.pellet_mass = cfg.pellet_mass) := by
  constructor
  · intro j hj
    have base := equal_split (fun i => playerEatsPlayer s i j)
      (massesAfterPellets cfg s j) hj
    constructor
    · intro i
      have := base.1 i
      simpa [pepNorm, if_pos hj, pepEntry, pepColSum, playerEaterCard] using this
    · have := base.2
      simpa [pepNorm, if_pos hj, pepEntry, pepColSum] using this
  · intro k hk
    have base := equal_split (fun i => playerEatsPellet cfg s i k)
      cfg.pellet_mass hk
    constructor
    · intro i
      have := base.1 i
      simpa [ppeNorm, if_pos hk, ppeEntry, ppeColSum, pelletEaterCard] using this
    · have := base.2
      simpa [ppeNorm, if_pos hk, ppeEntry, ppeColSum] using this

lemma sW1_pep01 : playerEatsPlayer sW1 0 1 := by
  constructor
  · show sW1.player_to_player_distances 0 1 < sW1.player_radii 0
    norm_num [sW1]
  · show sW1.player_radii 1 < sW1.player_radii 0
    norm_num [sW1]

lemma sW1_ppe00 : playerEatsPellet cfgD sW1 0 0 := by
  constructor
  · show sW1.player_to_pellet_distances 0 0 < sW1.player_radii 0 + cfgD.pellet_radius
    rw [cfgD_pellet_radius]
    norm_num [sW1]
  · rw [cfgD_pellet_radius]
    show (1 : ℝ) / 100 < sW1.player_radii 0
    norm_num [sW1]

theorem capture_split_conservation_witness :
    playerEaten sW1 1 ∧ pelletEaten cfgD sW1 0 ∧
    (∑ i, pepNorm sW1 i 1 * massesAfterPellets cfgD sW1 1
      = massesAfterPellets cfgD sW1 1) ∧
    (∑ i, ppeNorm cfgD sW1 i 0 * cfgD.pellet_mass = cfgD.pellet_mass) := by
  have h1 : playerEaten sW1 1 := ⟨0, sW1_pep01⟩
  have h2 : pelletEaten cfgD sW1 0 := ⟨0, sW1_ppe00⟩
  exact ⟨h1, h2, ((capture_split_conservation cfgD sW1).1 1 h1).2,
    ((capture_split_conservation cfgD sW1).2 0 h2).2⟩

/-- C5: under the kill-on-exit boundary handling, any agent alive at the start
of a tick whose moved coordinate leaves `[0,1)` in either axis keeps its
(unclipped) updated position, and ends the same tick dead with zero mass, no
matter what capture credit it was given in the mass update. -/
theorem kill_on_exit (cfg : Config) {P N : ℕ} (s : WorldState P N)
    (actions : Fin P → Fin 5) (draws : Fin N → ℝ × ℝ) (i : Fin P)
    (halive : s.player_is_alive i = true)
    (hout : outsideUnit (movedLocation cfg s actions i)) :
    (step cfg s actions draws).state.player_locations i
      = movedLocation cfg s actions i ∧
    (step cfg s actions draws).state.player_is_alive i = false ∧
    (step cfg s actions draws).state.player_masses i = 0 := by
  have hoff : playersOffScreen cfg s actions i := ⟨halive, hout⟩
  have ha : (step cfg s actions draws).state.player_is_alive i = false := by
    rw [step_alive]
    exact if_pos (Or.inr hoff)
  refine ⟨step_locations cfg s actions draws i, ha, ?_⟩
  rw [step_masses, ha]
  simp

theorem kill_on_exit_witness :
    sOut.player_is_alive 0 = true ∧
    outsideUnit (movedLocation cfgD sOut noop1 0) ∧
    (step cfgD sOut noop1 draws1).state.player_is_alive 0 = false ∧
    (step cfgD sOut noop1 draws1).state.player_masses 0 = 0 := by
  have h1 : sOut.player_is_alive 0 = true := rfl
  have h2 : outsideUnit (movedLocation cfgD sOut noop1 0) := by
    rw [moved_of_noop cfgD sOut noop1 0 rfl]
    exact Or.inr (Or.inl (by norm_num [sOut]))
  obtain ⟨-, h3, h4⟩ := kill_on_exit cfgD sOut noop1 draws1 0 h1 h2
  exact ⟨h1, h2, h3, h4⟩

/-- C6: in the mass update, decay is applied to every currently-alive agent as
`mass = max(mass * d, m0)`, so after the decay stage every living agent's mass
is at least the base mass. -/
theorem decay_floor (cfg : Config) {P N : ℕ} (s : WorldState P N) (i : Fin P)
    (h : s.player_is_alive i = true) :
    (updatePlayerMasses cfg s).player_masses i =
      max (massesAfterPlayers cfg s i * cfg.player_mass_decay)
        cfg.player_mass_base ∧
    cfg.player_mass_base ≤ (updatePlayerMasses cfg s).player_masses i := by
  have he : (updatePlayerMasses cfg s).player_masses i =
      max (massesAfterPlayers cfg s i * cfg.player_mass_decay)
        cfg.player_mass_base := by
    show massesAfterDecay cfg s i = _
    rw [massesAfterDecay, if_pos h]
  exact ⟨he, he ▸ le_max_right _ _⟩

theorem decay_floor_witness :
    sW1.player_is_alive 0 = true ∧
    cfgD.player_mass_base ≤ (updatePlayerMasses cfgD sW1).player_masses 0 :=
  ⟨rfl, (decay_floor cfgD sW1 0 rfl).2⟩

lemma step_dead_stays_dead (cfg : Config) {P N : ℕ} (s : WorldState P N)
    (a : Fin P → Fin 5) (d : Fin N → ℝ × ℝ) (i : Fin P)
    (h : s.player_is_alive i = false) :
    (step cfg s a d).state.player_is_alive i = false ∧
    (step cfg s a d).state.player_masses i = 0 := by
  have ha : (step cfg s a d).state.player_is_alive i = false := by
    rw [step_alive]
    by_cases hc : playerEaten (preCaptureState cfg s a) i ∨ playersOffScreen cfg s a i
    · exact if_pos hc
    · rw [if_neg hc]; exact h
  refine ⟨ha, ?_⟩
  rw [step_masses, ha]
  simp

lemma runSteps_dead (cfg : Config) {P N : ℕ}
    (inputs : List ((Fin P → Fin 5) × (Fin N → ℝ × ℝ))) :
    ∀ (s : WorldState P N) (i : Fin P), s.player_is_alive i = false →
      s.player_masses i = 0 →
      (runSteps cfg s inputs).player_is_alive i = false ∧
      (runSteps cfg s inputs).player_masses i = 0 := by
  induction inputs with
  | nil => intro s i h1 h2; exact ⟨h1, h2⟩
  | cons ad rest ih =>
    intro s i h1 h2
    obtain ⟨h1', h2'⟩ := step_dead_stays_dead cfg s ad.1 ad.2 i h1
    exact ih _ i h1' h2'

/-- C7: once an agent's alive flag is false, after every further tick of the
episode the flag is still false and the agent's mass is 0: agents are never
resurrected or respawned. -/
theorem death_permanence (cfg : Config) {P N : ℕ} (s : WorldState P N)
    (first : (Fin P → Fin 5) × (Fin N → ℝ × ℝ))
    (rest : List ((Fin P → Fin 5) × (Fin N → ℝ × ℝ))) (i : Fin P)
    (h : s.player_is_alive i = false) :
    (runSteps cfg s (first :: rest)).player_is_alive i = false ∧
    (runSteps cfg s (first :: rest)).player_masses i = 0 := by
  obtain ⟨h1, h2⟩ := step_dead_stays_dead cfg s first.1 first.2 i h
  simpa [runSteps] using runSteps_dead cfg rest _ i h1 h2

theorem death_permanence_witness :
    sDead.player_is_alive 0 = false ∧
    (runSteps cfgD sDead [(noop2, draws1)]).player_is_alive 0 = false ∧
    (runSteps cfgD sDead [(noop2, draws1)]).player_masses 0 = 0 := by
  obtain ⟨h1, h2⟩ := death_permanence cfgD sDead (noop2, draws1) [] 0 rfl
  exact ⟨rfl, h1, h2⟩

/-- C10: `step` mutates the caller's `actions` array in place before movement:
every entry at a not-alive index is overwritten with 0 (noop) and entries of
alive agents are left unchanged; `actionsOut` is the caller's array after the
call. -/
theorem step_overwrites_dead_actions (cfg : Config) {P N : ℕ}
    (s : WorldState P N) (a : Fin P → Fin 5) (d : Fin N → ℝ × ℝ) (i : Fin P)
    (hdead : s.player_is_alive i = false) :
    (step cfg s a d).actionsOut i = 0 ∧
    ∀ j, s.player_is_alive j = true → (step cfg s a d).actionsOut j = a j := by
  constructor
  · show maskedActions s a i = 0
    rw [maskedActions, hdead]
    simp
  · intro j hj
    show maskedActions s a j = a j
    rw [maskedActions, hj]
    simp

theorem step_overwrites_dead_actions_witness :
    sDV.player_is_alive 1 = false ∧ sDV.player_is_alive 0 = true ∧
    (step cfgD sDV noop2 draws1).actionsOut 1 = 0 ∧
    (step cfgD sDV noop2 draws1).actionsOut 0 = noop2 0 := by
  have hd : sDV.player_is_alive 1 = false := by simp [sDV]
  have hl : sDV.player_is_alive 0 = true := by simp [sDV]
  obtain ⟨h1, h2⟩ := step_overwrites_dead_actions cfgD sDV noop2 draws1 1 hd
  exact ⟨hd, hl, h1, h2 0 hl⟩

lemma sA_moved (i : Fin 2) :
    movedLocation cfgD sA noop2 i = sA.player_locations i :=
  moved_of_noop cfgD sA noop2 i rfl

lemma s2A_radii0 : s2A.player_radii 0 = 1 / 25 := by
  show Real.sqrt (sA.player_masses 0) * cfgD.sqrt_mass_to_radius = 1 / 25
  norm_num [sA, cfgD, sqrt_sixteen]

lemma s2A_radii1 : s2A.player_radii 1 = 1 / 50 := by
  show Real.sqrt (sA.player_masses 1) * cfgD.sqrt_mass_to_radius = 1 / 50
  norm_num [sA, cfgD, sqrt_four]

lemma s2A_dist01 : s2A.player_to_player_distances 0 1 = 1 / 50 := by
  show eDist (movedLocation cfgD sA noop2 0) (movedLocation cfgD sA noop2 1)
    = 1 / 50
  rw [sA_moved 0, sA_moved 1]
  show eDist ((1 : ℝ) / 2, 1 / 2) ((13 : ℝ) / 25, 1 / 2) = 1 / 50
  exact eDist_eval (by norm_num) (by norm_num)

lemma s2A_dist10 : s2A.player_to_player_distances 1 0 = 1 / 50 := by
  show eDist (movedLocation cfgD sA noop2 1) (movedLocation cfgD sA noop2 0)
    = 1 / 50
  rw [sA_moved 0, sA_moved 1]
  show eDist ((13 : ℝ) / 25, 1 / 2) ((1 : ℝ) / 2, 1 / 2) = 1 / 50
  exact eDist_eval (by norm_num) (by norm_num)

lemma s2A_pdist0 : s2A.player_to_pellet_distances 0 0 = 2 / 5 := by
  show eDist (movedLocation cfgD sA noop2 0) (sA.pellet_locations 0) = 2 / 5
  rw [sA_moved 0]
  show eDist ((1 : ℝ) / 2, 1 / 2) ((9 : ℝ) / 10, 1 / 2) = 2 / 5
  exact eDist_eval (by norm_num) (by norm_num)

lemma s2A_pdist1 : s2A.player_to_pellet_distances 1 0 = 19 / 50 := by
  show eDist (movedLocation cfgD sA noop2 1) (sA.pellet_locations 0) = 19 / 50
  rw [sA_moved 1]
  show eDist ((13 : ℝ) / 25, 1 / 2) ((9 : ℝ) / 10, 1 / 2) = 19 / 50
  exact eDist_eval (by norm_num) (by norm_num)

lemma s2A_alive (i : Fin 2) : s2A.player_is_alive i = true := rfl

lemma s2A_pep01 : playerEatsPlayer s2A 0 1 := by
  refine ⟨?_, ?_⟩
  · rw [s2A_dist01, s2A_radii0]; norm_num
  · rw [s2A_radii1, s2A_radii0]; norm_num

lemma s2A_not_pep10 : ¬ playerEatsPlayer s2A 1 0 := by
  intro h
  have h1 := h.1
  rw [s2A_dist10, s2A_radii1] at h1
  exact absurd h1 (by norm_num)

lemma s2A_not_ppe0 : ¬ playerEatsPellet cfgD s2A 0 0 := by
  intro h
  have h1 := h.1
  rw [s2A_pdist0, s2A_radii0, cfgD_pellet_radius] at h1
  exact absurd h1 (by norm_num)

lemma s2A_not_ppe1 : ¬ playerEatsPellet cfgD s2A 1 0 := by
  intro h
  have h1 := h.1
  rw [s2A_pdist1, s2A_radii1, cfgD_pellet_radius] at h1
  exact absurd h1 (by norm_num)

lemma s2A_playerEaten1 : playerEaten s2A 1 := ⟨0, s2A_pep01⟩

lemma s2A_not_playerEaten0 : ¬ playerEaten s2A 0 := by
  rintro ⟨i, hi⟩
  fin_cases i
  · exact not_playerEatsPlayer_self s2A 0 hi
  · exact s2A_not_pep10 hi

lemma s2A_not_pelletEaten0 : ¬ pelletEaten cfgD s2A 0 := by
  rintro ⟨i, hi⟩
  fin_cases i
  · exact s2A_not_ppe0 hi
  · exact s2A_not_ppe1 hi

lemma s2A_not_ppe (i : Fin 2) : ¬ playerEatsPellet cfgD s2A i 0 :=
  fun h => s2A_not_pelletEaten0 ⟨i, h⟩

lemma s2A_mAP (i : Fin 2) :
    massesAfterPellets cfgD s2A i = sA.player_masses i := by
  rw [massesAfterPellets, Fin.sum_univ_one, ppeNorm,
    if_neg s2A_not_pelletEaten0, ppeEntry, if_neg (s2A_not_ppe i), zero_mul,
    add_zero]
  rfl

lemma s2A_pepNorm00 : pepNorm s2A 0 0 = 0 := by
  rw [pepNorm, if_neg s2A_not_playerEaten0, pepEntry,
    if_neg (not_playerEatsPlayer_self s2A 0)]

lemma s2A_pepNorm10 : pepNorm s2A 1 0 = 0 := by
  rw [pepNorm, if_neg s2A_not_playerEaten0, pepEntry, if_neg s2A_not_pep10]

lemma s2A_colSum1 : pepColSum s2A 1 = 1 := by
  rw [pepColSum, Fin.sum_univ_two, pepEntry, if_pos s2A_pep01, pepEntry,
    if_neg (not_playerEatsPlayer_self s2A 1)]
  norm_num

lemma s2A_pepNorm01 : pepNorm s2A 0 1 = 1 := by
  rw [pepNorm, if_pos s2A_playerEaten1, pepEntry, if_pos s2A_pep01, s2A_colSum1]
  norm_num

lemma s2A_pepNorm11 : pepNorm s2A 1 1 = 0 := by
  rw [pepNorm, if_pos s2A_playerEaten1, pepEntry,
    if_neg (not_playerEatsPlayer_self s2A 1), zero_div]

lemma s2A_mAPl0 : massesAfterPlayers cfgD s2A 0 = 20 := by
  rw [massesAfterPlayers, Fin.sum_univ_two, s2A_pepNorm00, s2A_pepNorm01,
    s2A_mAP 0, s2A_mAP 1]
  norm_num [sA]

lemma s2A_mAPl1 : massesAfterPlayers cfgD s2A 1 = 4 := by
  rw [massesAfterPlayers, Fin.sum_univ_two, s2A_pepNorm10, s2A_pepNorm11,
    s2A_mAP 0, s2A_mAP 1]
  norm_num [sA]

lemma s2A_decay0 : massesAfterDecay cfgD s2A 0 = 999 / 50 := by
  rw [massesAfterDecay, if_pos (s2A_alive 0), s2A_mAPl0]
  have h1 : (20 : ℝ) * cfgD.player_mass_decay = 999 / 50 := by norm_num [cfgD]
  rw [h1]
  exact max_eq_left (by norm_num [cfgD])

lemma s2A_decay1 : massesAfterDecay cfgD s2A 1 = 4 := by
  rw [massesAfterDecay, if_pos (s2A_alive 1), s2A_mAPl1]
  have h1 : (4 : ℝ) * cfgD.player_mass_decay ≤ cfgD.player_mass_base := by
    norm_num [cfgD]
  rw [max_eq_right h1]
  norm_num [cfgD]

lemma sA_not_off (i : Fin 2) : ¬ playersOffScreen cfgD sA noop2 i := by
  intro h
  have hout := h.2
  rw [moved_of_noop cfgD sA noop2 i rfl] at hout
  fin_cases i
  · norm_num [sA, outsideUnit] at hout
  · norm_num [sA, outsideUnit] at hout

lemma stepA_alive1 :
    (step cfgD sA noop2 draws1).state.player_is_alive 1 = false := by
  rw [step_alive]
  exact if_pos (Or.inl s2A_playerEaten1)

lemma stepA_alive0 :
    (step cfgD sA noop2 draws1).state.player_is_alive 0 = true := by
  have hc : ¬ (playerEaten (preCaptureState cfgD sA noop2) 0 ∨
      playersOffScreen cfgD sA noop2 0) := by
    rintro (h | h)
    · exact s2A_not_playerEaten0 h
    · exact sA_not_off 0 h
  rw [step_alive, if_neg hc]
  rfl

lemma stepA_mass0 :
    (step cfgD sA noop2 draws1).state.player_masses 0 = 999 / 50 := by
  rw [step_masses, stepA_alive0, if_pos rfl]
  exact s2A_decay0

lemma stepA_mass1 :
    (step cfgD sA noop2 draws1).state.player_masses 1 = 0 := by
  rw [step_masses, stepA_alive1]
  simp

/-- C3 counterexample: in Scenario A (player 0 of mass 16 within capture
distance of player 1 of mass 4, the single pellet far away, both actions
noop) the code produces `(16 + 4) * d = 19.98` for player 0, which differs
from the claimed `16 * d + 4 = 19.984`: the victim's mass is added before
the decay factor is applied, not after. -/
theorem scenarioA_mass_not_16d_plus_4 :
    playerEatsPlayer (preCaptureState cfgD sA noop2) 0 1 ∧
    pelletEaten cfgD (preCaptureState cfgD sA noop2) 0 = False ∧
    (step cfgD sA noop2 draws1).state.player_masses 0 = 999 / 50 ∧
    ((999 : ℝ) / 50 = 16 * cfgD.player_mass_decay + 4) = False := by
  refine ⟨s2A_pep01, eq_false s2A_not_pelletEaten0, stepA_mass0, eq_false ?_⟩
  norm_num [cfgD]

/-- C3 amended: in Scenario A, after one step with both actions noop, player
0's mass is `(16 + 4) * d` (the eaten mass is credited before decay), and
player 1 ends with mass 0 and alive = false while player 0 stays alive. -/
theorem scenarioA_mass_20d :
    (step cfgD sA noop2 draws1).state.player_masses 0
      = (16 + 4) * cfgD.player_mass_decay ∧
    (step cfgD sA noop2 draws1).state.player_masses 1 = 0 ∧
    (step cfgD sA noop2 draws1).state.player_is_alive 1 = false ∧
    (step cfgD sA noop2 draws1).state.player_is_alive 0 = true := by
  refine ⟨?_, stepA_mass1, stepA_alive1, stepA_alive0⟩
  rw [stepA_mass0]
  norm_num [cfgD]

lemma sDV_pep01 : playerEatsPlayer (preCaptureState cfgD sDV noop2) 0 1 := by
  refine ⟨?_, ?_⟩
  · show eDist (movedLocation cfgD sDV noop2 0) (movedLocation cfgD sDV noop2 1)
      < Real.sqrt (sDV.player_masses 0) * cfgD.sqrt_mass_to_radius
    rw [moved_of_noop cfgD sDV noop2 0 rfl, moved_of_noop cfgD sDV noop2 1 rfl]
    have hsame : sDV.player_locations 0 = sDV.player_locations 1 := by
      simp [sDV]
    rw [hsame, eDist_same]
    norm_num [sDV, cfgD, sqrt_sixteen]
  · show Real.sqrt (sDV.player_masses 1) * cfgD.sqrt_mass_to_radius
      < Real.sqrt (sDV.player_masses 0) * cfgD.sqrt_mass_to_radius
    norm_num [sDV, cfgD, sqrt_sixteen]

/-- C4 counterexample: a dead agent can be recorded as a capture victim.  In
`sDV`, player 1 is dead (mass 0, radius 0) and lies under living player 0
(mass 16, radius 0.04); the capture matrix marks player 0 as eating player 1
even though player 1 is not alive. -/
theorem dead_agent_can_be_victim :
    sDV.player_is_alive 1 = false ∧
    playerEatsPlayer (preCaptureState cfgD sDV noop2) 0 1 ∧
    deadNeverVictim (preCaptureState cfgD sDV noop2) = False := by
  have hd : sDV.player_is_alive 1 = false := by simp [sDV]
  refine ⟨hd, sDV_pep01, eq_false ?_⟩
  intro h
  have h2 : sDV.player_is_alive 1 = true := h 0 1 sDV_pep01
  rw [hd] at h2
  exact absurd h2 (by simp)

/-- C4 amended: after movement and the radii/distance refresh, agent `i` eats
agent `j` exactly when `dist(i,j) < radius(i)` and `radius(j) < radius(i)`,
and eats pellet `k` exactly when `dist(i,k) < radius(i) + pelletRadius` and
`pelletRadius < radius(i)`; self-pairs never qualify, every recorded capture
has strict radius dominance, and a dead agent (whose mass is 0) never
qualifies as an eater — but a dead agent may still be recorded as a
zero-mass victim. -/
theorem capture_conditions_characterization (cfg : Config) {P N : ℕ}
    (s : WorldState P N) (actions : Fin P → Fin 5)
    (hc : 0 ≤ cfg.sqrt_mass_to_radius)
    (hdz : ∀ i, s.player_is_alive i = false → s.player_masses i = 0) :
    (∀ i j, playerEatsPlayer (preCaptureState cfg s actions) i j ↔
      (eDist (movedLocation cfg s actions i) (movedLocation cfg s actions j)
          < Real.sqrt (s.player_masses i) * cfg.sqrt_mass_to_radius ∧
        Real.sqrt (s.player_masses j) * cfg.sqrt_mass_to_radius
          < Real.sqrt (s.player_masses i) * cfg.sqrt_mass_to_radius)) ∧
    (∀ i k, playerEatsPellet cfg (preCaptureState cfg s actions) i k ↔
      (eDist (movedLocation cfg s actions i) (s.pellet_locations k)
          < Real.sqrt (s.player_masses i) * cfg.sqrt_mass_to_radius
            + cfg.pellet_radius ∧
        cfg.pellet_radius
          < Real.sqrt (s.player_masses i) * cfg.sqrt_mass_to_radius)) ∧
    (∀ i, playerEatsPlayer (preCaptureState cfg s actions) i i = False) ∧
    (∀ i j, playerEatsPlayer (preCaptureState cfg s actions) i j →
      (preCaptureState cfg s actions).player_radii j
        < (preCaptureState cfg s actions).player_radii i) ∧
    (∀ i k, playerEatsPellet cfg (preCaptureState cfg s actions) i k →
      cfg.pellet_radius < (preCaptureState cfg s actions).player_radii i) ∧
    (∀ i j, s.player_is_alive i = false →
      playerEatsPlayer (preCaptureState cfg s actions) i j = False) ∧
    (∀ i k, s.player_is_alive i = false →
      playerEatsPellet cfg (preCaptureState cfg s actions) i k = False) := by
  refine ⟨fun i j => Iff.rfl, fun i k => Iff.rfl,
    fun i => eq_false (not_playerEatsPlayer_self _ i),
    fun i j h => h.2, fun i k h => h.2, ?_, ?_⟩
  · intro i j hdead
    refine eq_false ?_
    intro h
    have hri : (preCaptureState cfg s actions).player_radii i = 0 := by
      show Real.sqrt (s.player_masses i) * cfg.sqrt_mass_to_radius = 0
      rw [hdz i hdead, Real.sqrt_zero, zero_mul]
    have hrj : 0 ≤ (preCaptureState cfg s actions).player_radii j :=
      mul_nonneg (Real.sqrt_nonneg _) hc
    have hlt := h.2
    rw [hri] at hlt
    exact absurd hlt (not_lt.mpr hrj)
  · intro i k hdead
    refine eq_false ?_
    intro h
    have hri : (preCaptureState cfg s actions).player_radii i = 0 := by
      show Real.sqrt (s.player_masses i) * cfg.sqrt_mass_to_radius = 0
      rw [hdz i hdead, Real.sqrt_zero, zero_mul]
    have hrp : 0 ≤ cfg.pellet_radius :=
      mul_nonneg (Real.sqrt_nonneg _) hc
    have hlt := h.2
    rw [hri] at hlt
    exact absurd hlt (not_lt.mpr hrp)

theorem capture_conditions_characterization_witness :
    (0 : ℝ) ≤ cfgD.sqrt_mass_to_radius ∧
    (∀ i, sDV.player_is_alive i = false → sDV.player_masses i = 0) ∧
    playerEatsPlayer (preCaptureState cfgD sDV noop2) 1 1 = False := by
  have hc : (0 : ℝ) ≤ cfgD.sqrt_mass_to_radius := by norm_num [cfgD]
  have hdz : ∀ i, sDV.player_is_alive i = false → sDV.player_masses i = 0 := by
    intro i hi
    fin_cases i
    · simp [sDV] at hi
    · simp [sDV]
  exact ⟨hc, hdz,
    (capture_conditions_characterization cfgD sDV noop2 hc hdz).2.2.1 1⟩

lemma sR_ppe00 : playerEatsPellet cfgD sR 0 0 := by
  refine ⟨?_, ?_⟩
  · show sR.player_to_pellet_distances 0 0 < sR.player_radii 0 + cfgD.pellet_radius
    rw [cfgD_pellet_radius]
    norm_num [sR]
  · rw [cfgD_pellet_radius]
    show (1 : ℝ) / 100 < sR.player_radii 0
    norm_num [sR]

lemma sR_pelletEaten : pelletEaten cfgD sR 0 := ⟨0, sR_ppe00⟩

/-- C2 counterexample: the pellet respawn performs no rejection sampling at
all — the single PRNG draw is used even when it lies inside a living agent's
capture radius.  Here the eaten pellet respawns at `(1/2, 1/2)`, the exact
center of a living agent of radius `1/25`. -/
theorem respawn_can_land_inside_agent :
    pelletEaten cfgD sR 0 ∧
    (0 ≤ (draws1 0).1 ∧ (draws1 0).1 ≤ 1 ∧ 0 ≤ (draws1 0).2 ∧ (draws1 0).2 ≤ 1) ∧
    respawnAvoidsLivingAgents sR (fun k => pelletEaten cfgD sR k) draws1
      = False := by
  refine ⟨sR_pelletEaten, by norm_num [draws1], eq_false ?_⟩
  intro h
  have hno := h 0 sR_pelletEaten 0 rfl
  refine hno ?_
  have hp : (updatePelletLocations sR (fun k => pelletEaten cfgD sR k)
      draws1).pellet_locations 0 = draws1 0 := by
    show (if pelletEaten cfgD sR 0 then draws1 0 else sR.pellet_locations 0)
      = draws1 0
    rw [if_pos sR_pelletEaten]
  rw [hp]
  have hsame : sR.player_locations 0 = draws1 0 := by simp [sR, draws1]
  rw [hsame, eDist_same]
  norm_num [sR]

/-- C2 amended: every pellet eaten this tick is respawned at exactly the
single fresh uniform draw supplied for it — no rejection and no constraint
with respect to living agents — and the distance entries for respawned
pellets are recomputed from the moved player locations. -/
theorem respawn_is_single_unconstrained_draw (cfg : Config) {P N : ℕ}
    (s : WorldState P N) (actions : Fin P → Fin 5) (draws : Fin N → ℝ × ℝ)
    (k : Fin N) :
    ((step cfg s actions draws).state.pellet_locations k =
      if pelletEaten cfg (preCaptureState cfg s actions) k then draws k
      else s.pellet_locations k) ∧
    (∀ i, (step cfg s actions draws).state.player_to_pellet_distances i k =
      if pelletEaten cfg (preCaptureState cfg s actions) k
      then eDist (movedLocation cfg s actions i) (draws k)
      else eDist (movedLocation cfg s actions i) (s.pellet_locations k)) :=
  ⟨rfl, fun _ => rfl⟩

lemma sDead_terminated : getTerminated sDead := by
  simp [getTerminated, numPlayersAlive, sDead]

/-- C8 counterexample: calling `step` on a terminated world (every player
dead, so termination holds for `P = 2`) is silently tolerated: the call
returns a normal tick result and no error is reported. -/
theorem step_after_termination_is_normal_tick :
    getTerminated sDead ∧
    (∃ r, stepEnv cfgD (some sDead) noop2 draws1 = Except.ok r) ∧
    isError (stepEnv cfgD (some sDead) noop2 draws1) = False := by
  refine ⟨sDead_terminated, ⟨step cfgD sDead noop2 draws1, rfl⟩, eq_false ?_⟩
  rintro ⟨e, he⟩
  simp [stepEnv] at he

/-- C8 amended: the only usage error `step` can report is an attribute error
from calling it before any `reset` (the state arrays do not exist yet); on
any initialized world — terminated or not — it silently runs a normal tick. -/
theorem stepEnv_error_iff_uninitialized (cfg : Config) {P N : ℕ}
    (es : Option (WorldState P N)) (a : Fin P → Fin 5) (d : Fin N → ℝ × ℝ) :
    isError (stepEnv cfg es a d) ↔ es = none := by
  cases es with
  | none => simp [stepEnv, isError]
  | some s => simp [stepEnv, isError]

/-- C9 counterexample: a configuration that is invalid in the spec's sense —
one agent but zero pellets and all masses and scales negative — is accepted
by the constructor without any error: no validation rejects it, so the
misconfiguration can only surface mid-tick. -/
theorem invalid_config_accepted :
    ∃ cfg : Config,
      initBaseWorld 1 0 (-1) (-1) (-1) (-1) (-1) (-1) (-1) = Except.ok cfg ∧
      cfg.num_players = 1 ∧ cfg.num_pellets = 0 ∧ cfg.pellet_mass = -1 ∧
      cfg.player_mass_base = -1 ∧ cfg.sqrt_mass_to_radius = -1 :=
  ⟨_, rfl, rfl, rfl, rfl, rfl, rfl⟩

/-- C9 amended: the constructor performs no validation of its own; the only
construction-time failure is the gymnasium space assertion that the agent
count is positive.  With any positive agent count, every other parameter —
including a pellet count of zero and non-positive masses and scales — is
stored and accepted without an error. -/
theorem constructor_checks_only_agent_positivity (num_players num_pellets : ℕ)
    (pellet_mass player_mass_base player_mass_decay player_speed_inv_pow
      player_speed_scale sqrt_mass_to_radius penalty_base_mass : ℝ) :
    isError (initBaseWorld 0 num_pellets pellet_mass player_mass_base
      player_mass_decay player_speed_inv_pow player_speed_scale
      sqrt_mass_to_radius penalty_base_mass) ∧
    ∃ cfg : Config,
      initBaseWorld (num_players + 1) num_pellets pellet_mass player_mass_base
        player_mass_decay player_speed_inv_pow player_speed_scale
        sqrt_mass_to_radius penalty_base_mass = Except.ok cfg ∧
      cfg.num_players = num_players + 1 ∧ cfg.num_pellets = num_pellets ∧
      cfg.pellet_mass = pellet_mass ∧ cfg.player_mass_base = player_mass_base ∧
      cfg.sqrt_mass_to_radius = sqrt_mass_to_radius := by
  constructor
  · exact ⟨_, rfl⟩
  · have h : initBaseWorld (num_players + 1) num_pellets pellet_mass
        player_mass_base player_mass_decay player_speed_inv_pow
        player_speed_scale sqrt_mass_to_radius penalty_base_mass =
        Except.ok
          { num_players := num_players + 1
            num_pellets := num_pellets
            pellet_mass := pellet_mass
            player_mass_base := player_mass_base
            player_mass_decay := player_mass_decay
            player_speed_inv_pow := player_speed_inv_pow
            player_speed_scale := player_speed_scale
            sqrt_mass_to_radius := sqrt_mass_to_radius
            penalty_base_mass := penalty_base_mass } := by
      rw [initBaseWorld, if_neg (Nat.succ_ne_zero num_players)]
    exact ⟨_, h, rfl, rfl, rfl, rfl, rfl⟩

end

end SimpleAgar
